import Mathlib

/-!
# Verification of the CS143 network-simulator core

Shallow embedding, in Lean 4, of the congestion-control and packet-tracking
logic of the simulator (files `congestion_controller.py`, `packet_tracker.py`,
`host.py`, `parsing.py`), together with proofs and refutations of the
specification's claims about that code.

Conventions of the embedding:
* Python mutable objects become Lean structures; each method becomes a
  function from the old state to the new state.
* Python floats (`cwnd`, `ssthresh`, timestamps) are modelled as rationals,
  matching the spec's description of the window as real-valued.
* A Python `PriorityQueue` is modelled as an ascending sorted list: `queue[0]`
  is the head, `put` is ordered insertion (duplicates allowed, as in the heap),
  `get_nowait` pops the head, `len` is the list length.
* Code that raises (KeyError, NameError, a TypeError from a mis-declared
  method, `sys.exit`) is modelled with `Except`: `.error` carries the object
  state at the moment the exception escapes, since the process then aborts.
-/

namespace CS143

/-! ## PacketTracker (`packet_tracker.py`) -/

/-- State of `PacketTracker`: `next_packet` is the next expected identifier,
`early_packets` models the `Queue.PriorityQueue` of identifiers that arrived
ahead of `next_packet`, as an ascending list (head = minimum). -/
structure PacketTracker where
  next_packet : ℕ
  early_packets : List ℕ
deriving DecidableEq, Repr

namespace PacketTracker

/-- Constructor `PacketTracker.__init__`: `next_packet = 0`, empty priority queue. -/
def init : PacketTracker := ⟨0, []⟩

/-- Method `PriorityQueue.put`: ordered insertion into the ascending list. A heap
`put` never tests membership, so duplicates are inserted as duplicates. -/
def pqPut (x : ℕ) : List ℕ → List ℕ
  | [] => [x]
  | y :: ys => if x ≤ y then x :: y :: ys else y :: pqPut x ys

/-- The `while not empty and next_packet == queue[0]` loop of
`account_for_packet`: advance `next_packet` and pop the head while the head
equals the current `next_packet`. -/
def coalesce : ℕ → List ℕ → ℕ × List ℕ
  | n, [] => (n, [])
  | n, x :: xs => if n = x then coalesce (n + 1) xs else (n, x :: xs)

/-- Method `PacketTracker.account_for_packet(packet_id)`, straight from the source:
on a match, advance `next_packet` then run the coalescing loop; on a larger
id, `put` it into the priority queue; on a smaller id, do nothing. -/
def account_for_packet (t : PacketTracker) (packet_id : ℕ) : PacketTracker :=
  if packet_id = t.next_packet then
    let nq := coalesce (t.next_packet + 1) t.early_packets
    ⟨nq.1, nq.2⟩
  else if packet_id > t.next_packet then
    ⟨t.next_packet, pqPut packet_id t.early_packets⟩
  else
    t

/-- Method `PacketTracker.total_count_received()`:
`next_packet + len(early_packets.queue)`. -/
def total_count_received (t : PacketTracker) : ℕ :=
  t.next_packet + t.early_packets.length

/-- The state reached from a fresh tracker by a sequence of
`account_for_packet` calls. -/
def run (ids : List ℕ) : PacketTracker :=
  ids.foldl account_for_packet init

lemma coalesce_fst_ge (l : List ℕ) (n : ℕ) : n ≤ (coalesce n l).1 := by
  induction l generalizing n with
  | nil => simp [coalesce]
  | cons x xs ih =>
    simp only [coalesce]
    split
    · exact le_trans (Nat.le_succ n) (ih (n + 1))
    · exact le_refl n

lemma pqPut_length (x : ℕ) (l : List ℕ) : (pqPut x l).length = l.length + 1 := by
  induction l with
  | nil => rfl
  | cons y ys ih =>
    simp only [pqPut]
    split
    · simp
    · simp [ih]

/-- A single `account_for_packet` call never decreases `next_packet`. -/
lemma account_next_mono (t : PacketTracker) (id : ℕ) :
    t.next_packet ≤ (account_for_packet t id).next_packet := by
  unfold account_for_packet
  split
  · exact le_trans (Nat.le_succ _) (coalesce_fst_ge _ _)
  · split
    · exact le_refl _
    · exact le_refl _

end PacketTracker

/-! ### Claims about PacketTracker -/

open PacketTracker

/-- C3, counterexample. The claim asserts that `account_for_packet` is
idempotent on early arrivals. It is not: starting from a fresh tracker,
`account_for_packet 2` puts `2` in the early queue; calling
`account_for_packet 2` again — with `2 > next_packet` and `2` already in
the early queue — changes the state, inserting a second copy of `2`. -/
theorem account_for_packet_not_idempotent :
    let t := account_for_packet .init 2
    2 > t.next_packet ∧ 2 ∈ t.early_packets ∧ account_for_packet t 2 ≠ t ∧
      total_count_received (account_for_packet t 2) = 2 := by
  decide

/-- C3, amended: re-accounting an id strictly greater than `next_packet` that
is already in the early queue leaves `next_packet` unchanged but appends
another copy of the id, so `total_count_received` grows by one — it counts
queue entries with multiplicity, not distinct packets. -/
theorem account_for_packet_early_duplicate (t : PacketTracker) (id : ℕ)
    (hgt : id > t.next_packet) (_hmem : id ∈ t.early_packets) :
    (account_for_packet t id).next_packet = t.next_packet ∧
      total_count_received (account_for_packet t id) = total_count_received t + 1 := by
  unfold account_for_packet
  rw [if_neg (Nat.ne_of_gt hgt), if_pos hgt]
  refine ⟨rfl, ?_⟩
  simp only [total_count_received, pqPut_length]
  omega

/-- Witness for `account_for_packet_early_duplicate` at the tracker reached
from fresh by `account_for_packet 2`, re-accounting id `2`. -/
theorem account_for_packet_early_duplicate_witness :
    (account_for_packet ⟨0, [2]⟩ 2).next_packet = (⟨0, [2]⟩ : PacketTracker).next_packet ∧
      total_count_received (account_for_packet ⟨0, [2]⟩ 2) =
        total_count_received ⟨0, [2]⟩ + 1 :=
  account_for_packet_early_duplicate ⟨0, [2]⟩ 2 (by decide) (by decide)

/-- C4: along every sequence of `account_for_packet` calls from a fresh
tracker, `total_count_received` equals `next_packet` plus the number of
entries of the early queue, and `next_packet` does not decrease at the next
call. -/
theorem packetTracker_invariant (ids : List ℕ) (id : ℕ) :
    total_count_received (run ids) =
        (run ids).next_packet + (run ids).early_packets.length ∧
      (run ids).next_packet ≤ (account_for_packet (run ids) id).next_packet :=
  ⟨rfl, account_next_mono (run ids) id⟩

/-- C9: from a fresh tracker, accounting ids 2, 0, 1 in that order yields
`next_packet = 3`, an empty early queue, and `total_count_received() = 3`. -/
theorem packetTracker_example :
    (run [2, 0, 1]).next_packet = 3 ∧ (run [2, 0, 1]).early_packets = [] ∧
      total_count_received (run [2, 0, 1]) = 3 := by
  decide

/-! ## Congestion controllers (`congestion_controller.py`) -/

/-- An acknowledgment packet as the controllers see it: the acknowledged
identifier and the next-expected identifier it carries. -/
structure AcknowledgementPacket where
  identifier : ℕ
  next_id : ℕ
deriving DecidableEq, Repr

/-- The three state strings `slow_start`, `congestion_avoidance`,
`fast_recovery` of `congestion_controller.py`. -/
inductive CCState where
  | slow_start
  | congestion_avoidance
  | fast_recovery
deriving DecidableEq, Repr

/-- Fields set by `CongestionController.__init__` plus the `state` field added
by `CongestionControllerReno.__init__`. `not_acknowledged` maps packet
identifiers to send timestamps. -/
structure CongestionControllerReno where
  ssthresh : ℚ
  cwnd : ℚ
  not_acknowledged : List (ℕ × ℚ)
  duplicate_count : ℕ
  next_packet_num : ℕ
  last_ack_received : ℤ
  state : CCState
deriving DecidableEq, Repr

namespace CongestionControllerReno

/-- Constructor `CongestionControllerReno()`: base-class initialization
(`ssthresh = 1200`, `cwnd = 1.0`, empty map, counters at 0, `-1`)
followed by `state = slow_start`. -/
def init : CongestionControllerReno :=
  { ssthresh := 1200, cwnd := 1, not_acknowledged := [], duplicate_count := 0,
    next_packet_num := 0, last_ack_received := -1, state := .slow_start }

/-- Method `CongestionControllerReno.acknowledgement_received(packet)`.

In the duplicate-ACK branch the source runs `self.cwnd /= 2`,
`self.ssthresh = self.cwnd`, `self.send_packet()`, `self.state =
fast_recovery` in that order. `CongestionControllerReno.send_packet` is
declared as `def send_packet():` with no `self` parameter, so the bound-method
call `self.send_packet()` raises a `TypeError` that nothing catches; the run
aborts after the window updates and before `state = fast_recovery`, and the
`pass` body never runs. That abort is the `.error` case, carrying the object
state at the moment the exception escapes. -/
def acknowledgement_received (c : CongestionControllerReno)
    (packet : AcknowledgementPacket) :
    Except CongestionControllerReno CongestionControllerReno :=
  match c.state with
  | .slow_start =>
      let c1 := { c with cwnd := c.cwnd + 1 }
      if c1.cwnd > c1.ssthresh then
        .ok { c1 with state := .congestion_avoidance }
      else
        .ok c1
  | .congestion_avoidance =>
      if c.next_packet_num = packet.identifier then
        .ok { c with cwnd := c.cwnd + 1 / c.cwnd }
      else
        let c1 := { c with duplicate_count := c.duplicate_count + 1 }
        if c1.duplicate_count ≥ 3 then
          .error { c1 with cwnd := c1.cwnd / 2, ssthresh := c1.cwnd / 2 }
        else
          .ok c1
  | .fast_recovery =>
      .ok { c with state := .congestion_avoidance, cwnd := c.ssthresh }

/-- The controller's field state after a call, whether the call returned
normally or the run aborted mid-call. -/
def finalState :
    Except CongestionControllerReno CongestionControllerReno →
      CongestionControllerReno
  | .ok c => c
  | .error c => c

/-- Whether the call aborted the run (the `TypeError` path). -/
def aborted :
    Except CongestionControllerReno CongestionControllerReno → Bool
  | .ok _ => false
  | .error _ => true

end CongestionControllerReno

/-! ### Claims about the Reno controller -/

deriving instance DecidableEq for Except

open CongestionControllerReno

/-- A controller in CongestionAvoidance with no duplicate ACKs yet:
`cwnd = 8`, `ssthresh = 10`, `next_packet_num = 0`. -/
def renoCA : CongestionControllerReno :=
  { CongestionControllerReno.init with
      state := .congestion_avoidance, cwnd := 8, ssthresh := 10 }

/-- A controller in CongestionAvoidance whose duplicate-ACK count already
reached 3. -/
def renoStuck : CongestionControllerReno :=
  { renoCA with duplicate_count := 3 }

/-- C5: evaluating the code at the failing input. From CongestionAvoidance
with duplicate count 0, two acknowledgments whose identifier 1 does not match
`next_packet_num = 0` leave `cwnd` and the state unchanged (as the claim
says); the third halves `cwnd` and sets `ssthresh` to the halved value, but
then the call to the argument-less `send_packet` stub raises a `TypeError`,
so the run aborts with the state still CongestionAvoidance — no
retransmission is sent and FastRecovery is never entered. -/
theorem reno_three_duplicate_acks :
    ∃ c1 c2 e,
      acknowledgement_received renoCA ⟨1, 2⟩ = .ok c1 ∧
        c1.cwnd = renoCA.cwnd ∧ c1.state = .congestion_avoidance ∧
      acknowledgement_received c1 ⟨1, 2⟩ = .ok c2 ∧
        c2.cwnd = renoCA.cwnd ∧ c2.state = .congestion_avoidance ∧
      acknowledgement_received c2 ⟨1, 2⟩ = .error e ∧
        e.cwnd = renoCA.cwnd / 2 ∧ e.ssthresh = renoCA.cwnd / 2 ∧
        e.state = .congestion_avoidance ∧ e.state ≠ .fast_recovery := by
  refine ⟨{ renoCA with duplicate_count := 1 },
    { renoCA with duplicate_count := 2 },
    { renoCA with
        duplicate_count := 3, cwnd := renoCA.cwnd / 2, ssthresh := renoCA.cwnd / 2 },
    ?_⟩
  exact ⟨rfl, rfl, rfl, rfl, rfl, rfl, rfl, rfl, rfl, rfl, by decide⟩

/-- C6, counterexample: with the duplicate count already at 3, a further
acknowledgment in CongestionAvoidance whose identifier does not match
`next_packet_num` does not re-enter FastRecovery — the call aborts the run
(the `TypeError` in the `send_packet` stub) with the state still
CongestionAvoidance. -/
theorem reno_retrigger_aborts :
    renoStuck.state = .congestion_avoidance ∧ 3 ≤ renoStuck.duplicate_count ∧
      (⟨1, 2⟩ : AcknowledgementPacket).identifier ≠ renoStuck.next_packet_num ∧
      aborted (acknowledgement_received renoStuck ⟨1, 2⟩) = true ∧
      (finalState (acknowledgement_received renoStuck ⟨1, 2⟩)).state ≠
        .fast_recovery := by
  decide

/-- No `acknowledgement_received` call decreases the duplicate-ACK count,
whether it returns normally or aborts. -/
lemma duplicate_count_mono (c : CongestionControllerReno)
    (p : AcknowledgementPacket) :
    c.duplicate_count ≤
      (finalState (acknowledgement_received c p)).duplicate_count := by
  obtain ⟨s, w, na, d, n, l, st⟩ := c
  cases st <;> unfold acknowledgement_received <;> dsimp only
  · split <;> simp [finalState]
  · split
    · simp [finalState]
    · split <;> (simp [finalState]; try omega)
  · simp [finalState]

/-- C6, amended: `duplicate_count` starts at 0 and no
`acknowledgement_received` call ever decreases it; consequently, once it has
reached 3, every later acknowledgment received in CongestionAvoidance whose
identifier does not match `next_packet_num` immediately halves `cwnd` and
sets `ssthresh` to the halved value, after which the run aborts in the
`send_packet` stub before the state is set to FastRecovery. -/
theorem duplicate_count_never_reset (c : CongestionControllerReno)
    (packet : AcknowledgementPacket)
    (hca : c.state = .congestion_avoidance) (h3 : 3 ≤ c.duplicate_count)
    (hid : packet.identifier ≠ c.next_packet_num) :
    CongestionControllerReno.init.duplicate_count = 0 ∧
      (∀ c' p',
        c'.duplicate_count ≤
          (finalState (acknowledgement_received c' p')).duplicate_count) ∧
      acknowledgement_received c packet =
        .error { c with duplicate_count := c.duplicate_count + 1,
                        cwnd := c.cwnd / 2, ssthresh := c.cwnd / 2 } := by
  refine ⟨rfl, duplicate_count_mono, ?_⟩
  obtain ⟨s, w, na, d, n, l, st⟩ := c
  dsimp only at hca h3 hid ⊢
  subst hca
  unfold acknowledgement_received
  dsimp only
  rw [if_neg (fun hmatch => hid hmatch.symm), if_pos (by omega)]

/-- Witness for `duplicate_count_never_reset` at the stuck controller and a
non-matching acknowledgment. -/
theorem duplicate_count_never_reset_witness :
    CongestionControllerReno.init.duplicate_count = 0 ∧
      (∀ c' p',
        c'.duplicate_count ≤
          (finalState (acknowledgement_received c' p')).duplicate_count) ∧
      acknowledgement_received renoStuck ⟨1, 2⟩ =
        .error { renoStuck with duplicate_count := renoStuck.duplicate_count + 1,
                                cwnd := renoStuck.cwnd / 2,
                                ssthresh := renoStuck.cwnd / 2 } :=
  duplicate_count_never_reset renoStuck ⟨1, 2⟩ (by decide) (by decide) (by decide)

/-- C7: in SlowStart every acknowledgment increases `cwnd` by exactly 1, and
the state moves to CongestionAvoidance precisely when the new `cwnd` exceeds
`ssthresh` (so the transition fires exactly once, at the first crossing, per
traversal of SlowStart); otherwise the state remains SlowStart. -/
theorem slow_start_growth (c : CongestionControllerReno)
    (packet : AcknowledgementPacket) (h : c.state = .slow_start) :
    ∃ c1, acknowledgement_received c packet = .ok c1 ∧
      c1.cwnd = c.cwnd + 1 ∧
      (c1.state = .congestion_avoidance ↔ c.cwnd + 1 > c.ssthresh) ∧
      (c1.state = .slow_start ↔ ¬c.cwnd + 1 > c.ssthresh) := by
  obtain ⟨s, w, na, d, n, l, st⟩ := c
  dsimp only at h ⊢
  subst h
  unfold acknowledgement_received
  dsimp only
  by_cases hgt : s < w + 1
  · rw [if_pos hgt]
    exact ⟨_, rfl, rfl, by simp [hgt], by simp [hgt]⟩
  · rw [if_neg hgt]
    exact ⟨_, rfl, rfl, by simp [hgt], by simp [hgt]⟩

/-- Witness for `slow_start_growth` at the freshly initialized controller. -/
theorem slow_start_growth_witness :
    init.state = .slow_start ∧
      ∃ c1, acknowledgement_received init ⟨0, 1⟩ = .ok c1 ∧
        c1.cwnd = init.cwnd + 1 ∧
        (c1.state = .congestion_avoidance ↔ init.cwnd + 1 > init.ssthresh) ∧
        (c1.state = .slow_start ↔ ¬init.cwnd + 1 > init.ssthresh) :=
  ⟨rfl, slow_start_growth init ⟨0, 1⟩ rfl⟩

/-- C8: from FastRecovery, the next acknowledgment — whatever its content —
sets `cwnd = ssthresh` and moves the state to CongestionAvoidance, leaving
every other field unchanged. -/
theorem fast_recovery_exit (c : CongestionControllerReno)
    (packet : AcknowledgementPacket) (h : c.state = .fast_recovery) :
    acknowledgement_received c packet =
      .ok { c with state := .congestion_avoidance, cwnd := c.ssthresh } := by
  unfold acknowledgement_received
  rw [h]

/-- Witness for `fast_recovery_exit` at a controller in FastRecovery. -/
theorem fast_recovery_exit_witness :
    ({ renoCA with state := .fast_recovery } :
        CongestionControllerReno).state = .fast_recovery ∧
      acknowledgement_received { renoCA with state := .fast_recovery } ⟨7, 8⟩ =
        .ok { { renoCA with state := .fast_recovery } with
                state := .congestion_avoidance,
                cwnd := ({ renoCA with state := .fast_recovery } :
                  CongestionControllerReno).ssthresh } :=
  ⟨rfl, fast_recovery_exit { renoCA with state := .fast_recovery } ⟨7, 8⟩ rfl⟩

/-! ## The Fast controller (`congestion_controller.py`, `CongestionControllerFast`) -/

/-- A Python exception escaping a method call (the process aborts). -/
inductive PyError where
  | keyError
  | nameError
deriving DecidableEq, Repr

/-- Fields of `CongestionControllerFast`: base-class initialization followed
by `alpha = 10.0` and `base_RTT = -1`. -/
structure CongestionControllerFast where
  ssthresh : ℚ
  cwnd : ℚ
  not_acknowledged : List (ℕ × ℚ)
  duplicate_count : ℕ
  next_packet_num : ℕ
  last_ack_received : ℤ
  alpha : ℚ
  base_RTT : ℚ
deriving DecidableEq, Repr

namespace CongestionControllerFast

/-- Constructor `CongestionControllerFast()`. -/
def init : CongestionControllerFast :=
  { ssthresh := 1200, cwnd := 1, not_acknowledged := [], duplicate_count := 0,
    next_packet_num := 0, last_ack_received := -1, alpha := 10, base_RTT := -1 }

/-- Method `CongestionControllerFast.acknowledgement_received(packet)` as the class
actually has it: the class body defines `acknowledgement_received` twice, and
Python keeps only the later binding, whose body is `pass`. The effective
method therefore returns with the controller unchanged: nothing is removed
from `not_acknowledged`, and `base_RTT` and `cwnd` keep their values. -/
def acknowledgement_received (c : CongestionControllerFast)
    (_packet : AcknowledgementPacket) : CongestionControllerFast := c

/-- The first, shadowed definition of
`CongestionControllerFast.acknowledgement_received`, translated statement by
statement. `del self.not_acknowledged[packet.identifier]` raises `KeyError`
when the identifier is absent; when `last_ack_received == packet.next_id`,
the guard `if duplicate_count >= 3` reads the bare, undefined name
`duplicate_count` and raises `NameError`; otherwise `rtt =
self.clock.current_time - self.not_acknowledged[packet.identifier]` re-reads
the entry that was just deleted and raises `KeyError`. The read of
`self.clock` is modelled by the `current_time` parameter (assuming a clock
injected by the owning Flow, per the spec); the remaining statements are
translated although no path reaches them. -/
def acknowledgement_received_shadowed (c : CongestionControllerFast)
    (packet : AcknowledgementPacket) (current_time : ℚ) :
    Except PyError CongestionControllerFast :=
  match c.not_acknowledged.lookup packet.identifier with
  | none => .error .keyError
  | some _ =>
    let c1 := { c with not_acknowledged :=
      c.not_acknowledged.filter (fun kv => kv.1 != packet.identifier) }
    if c1.last_ack_received = (packet.next_id : ℤ) then
      .error .nameError
    else
      match c1.not_acknowledged.lookup packet.identifier with
      | none => .error .keyError
      | some send_time =>
        let rtt := current_time - send_time
        let c2 := if c1.base_RTT = -1 then { c1 with base_RTT := rtt } else c1
        let c3 := { c2 with cwnd := c2.cwnd * c2.base_RTT / rtt }
        if rtt < c3.base_RTT then .ok { c3 with base_RTT := rtt } else .ok c3

end CongestionControllerFast

/-- A fresh Fast controller that sent packet 0 at time 0 and has not yet seen
an acknowledgment — the configuration in which the claim's first RTT sample
`rtt = 100` would arrive. -/
def fastFirstSample : CongestionControllerFast :=
  { CongestionControllerFast.init with not_acknowledged := [(0, 0)] }

/-- C1: evaluating the code at the failing input. The effective
`CongestionControllerFast.acknowledgement_received` is the second definition
in the class body, whose body is `pass`: it is a no-op on every controller
state and packet. In particular, on the configuration where the claim's
first RTT sample of 100 should set `base_RTT = 100`, the acknowledged
identifier stays in `not_acknowledged`, `base_RTT` stays `-1` (not 100), and
`cwnd` is not rescaled. -/
theorem fast_acknowledgement_is_noop :
    (∀ c packet, CongestionControllerFast.acknowledgement_received c packet = c) ∧
      CongestionControllerFast.acknowledgement_received fastFirstSample ⟨0, 1⟩ =
        fastFirstSample ∧
      (CongestionControllerFast.acknowledgement_received fastFirstSample
        ⟨0, 1⟩).not_acknowledged = [(0, 0)] ∧
      (CongestionControllerFast.acknowledgement_received fastFirstSample
        ⟨0, 1⟩).base_RTT = -1 ∧
      (CongestionControllerFast.acknowledgement_received fastFirstSample
        ⟨0, 1⟩).base_RTT ≠ 100 := by
  refine ⟨fun c packet => rfl, rfl, rfl, rfl, ?_⟩
  norm_num [CongestionControllerFast.acknowledgement_received, fastFirstSample,
    CongestionControllerFast.init]

/-- Looking up a key in a list from which every pair with that key was
filtered out yields nothing — deleting a dict entry and re-reading it is a
`KeyError`. -/
lemma lookup_filter_ne (k : ℕ) (l : List (ℕ × ℚ)) :
    (l.filter (fun kv => kv.1 != k)).lookup k = none := by
  induction l with
  | nil => rfl
  | cons kv tl ih =>
    obtain ⟨k1, v1⟩ := kv
    rw [List.filter_cons]
    by_cases hk : k1 = k
    · simp only [hk, bne_self_eq_false, Bool.false_eq_true, if_false]
      exact ih
    · have hb : ((k1, v1).1 != k) = true := by simpa [bne_iff_ne] using hk
      simp only [hb, if_true]
      have hbeq : (k == k1) = false := by
        simpa [beq_eq_false_iff_ne] using Ne.symm hk
      simp [List.lookup, hbeq, ih]

/-- Supporting fact: every call of the first, shadowed definition raises —
either the `KeyError` of the `del`, the `NameError` of the bare
`duplicate_count`, or the `KeyError` of re-reading the deleted entry — so
even the shadowed code never produces the claimed updates. -/
theorem fast_shadowed_always_raises (c : CongestionControllerFast)
    (packet : AcknowledgementPacket) (current_time : ℚ) :
    ∃ e, CongestionControllerFast.acknowledgement_received_shadowed
      c packet current_time = .error e := by
  unfold CongestionControllerFast.acknowledgement_received_shadowed
  cases hl : c.not_acknowledged.lookup packet.identifier
  · exact ⟨.keyError, rfl⟩
  · dsimp only
    split
    · exact ⟨.nameError, rfl⟩
    · rw [lookup_filter_ne]
      exact ⟨.keyError, rfl⟩

/-! ## Host (`host.py`) and the topology loader (`parsing.py`) -/

/-- A link as the loader constructs it:
`Link(id, rate, delay, buffer, deviceA, deviceB)`, with the two endpoint
devices recorded by identifier. -/
structure Link where
  identifier : String
  rate : ℚ
  delay : ℚ
  buffer : ℚ
  deviceA : String
  deviceB : String
deriving DecidableEq, Repr

/-- Constructor `Host.__init__(identifier)`: the identifier and `self.link = None`. The
flow/clock/scheduler references play no part in the claims settled here. -/
structure Host where
  identifier : String
  link : Option Link
deriving DecidableEq, Repr

namespace Host

/-- Constructor call `Host(identifier)`. -/
def init (identifier : String) : Host := ⟨identifier, none⟩

/-- Method `Host.attach_link(link)`: when no link is attached yet the link is
recorded; otherwise the source calls
`sys.exit("Illegal to attach multiple links to a host")`, modelled as
`.error` with that message — the run aborts, the attached link is neither
replaced nor supplemented. -/
def attach_link (h : Host) (link : Link) : Except String Host :=
  match h.link with
  | none => .ok { h with link := some link }
  | some _ => .error "Illegal to attach multiple links to a host"

end Host

/-- One entry of the `flows` collection of the topology description:
`{id, source, destination, amount, start}`. -/
structure FlowInfo where
  id : String
  source : String
  destination : String
  amount : ℚ
  start : ℚ
deriving DecidableEq, Repr

/-- Constructor call `Flow(id, source, destination, amount, start)` as the loader constructs
it: the endpoint arguments are results of `hosts.get(...)`, hence optional. -/
structure Flow where
  identifier : String
  source : Option Host
  destination : Option Host
  amount : ℚ
  start : ℚ
deriving DecidableEq, Repr

/-- The `hosts` dictionary built by `generate_simulation_from_testcase`:
`hosts[h["id"]] = Host(h["id"])` for each entry of `hosts_info`. -/
def build_hosts (hosts_info : List String) : List (String × Host) :=
  hosts_info.map (fun i => (i, Host.init i))

/-- The body of the `flows` loop of `generate_simulation_from_testcase`,
statement by statement:
`source_id = f["source"]; destination_id = f["destination"];
source = hosts.get(source_id); destination = hosts.get(source_id);
flows[f["id"]] = Flow(f["id"], source, destination, f["amount"], f["start"])`
— the second `hosts.get` call also passes `source_id`. -/
def generate_flow (hosts : List (String × Host)) (f : FlowInfo) : Flow :=
  let source_id := f.source
  let _destination_id := f.destination
  let source := hosts.lookup source_id
  let destination := hosts.lookup source_id
  { identifier := f.id, source := source, destination := destination,
    amount := f.amount, start := f.start }

/-! ### Claims about Host and the loader -/

/-- C2: evaluating the loader at a failing input. With hosts `H1` and `H2`
and a flow entry whose source is `H1` and whose destination is `H2`, the
constructed Flow's destination is the Host with id `H1` (the source), not the
Host with id `H2` named by the entry's destination field: the loader looks
the destination up with `source_id`. -/
theorem flow_destination_uses_source_id :
    (generate_flow (build_hosts ["H1", "H2"])
        { id := "F1", source := "H1", destination := "H2",
          amount := 1000, start := 0 }).source = some (Host.init "H1") ∧
      (generate_flow (build_hosts ["H1", "H2"])
        { id := "F1", source := "H1", destination := "H2",
          amount := 1000, start := 0 }).destination = some (Host.init "H1") ∧
      (generate_flow (build_hosts ["H1", "H2"])
        { id := "F1", source := "H1", destination := "H2",
          amount := 1000, start := 0 }).destination ≠ some (Host.init "H2") := by
  refine ⟨rfl, rfl, ?_⟩
  intro h
  have : Host.init "H1" = Host.init "H2" := by
    simpa [generate_flow, build_hosts, List.lookup] using h
  simp [Host.init] at this

/-- C10: attaching a link to a Host with no link attached succeeds and
records that link; a second `attach_link` on the resulting Host aborts the
run with the configuration error, for any second link — the first link is
neither replaced nor supplemented. -/
theorem attach_link_once (h : Host) (l l2 : Link) (hnone : h.link = none) :
    Host.attach_link h l = .ok { h with link := some l } ∧
      Host.attach_link { h with link := some l } l2 =
        .error "Illegal to attach multiple links to a host" := by
  constructor
  · unfold Host.attach_link
    rw [hnone]
  · rfl

/-- Witness for `attach_link_once` at a fresh host and two concrete links. -/
theorem attach_link_once_witness :
    (Host.init "H1").link = none ∧
      (Host.attach_link (Host.init "H1") ⟨"L1", 10, 10, 64, "H1", "H2"⟩ =
          .ok { Host.init "H1" with link := some ⟨"L1", 10, 10, 64, "H1", "H2"⟩ } ∧
        Host.attach_link
            { Host.init "H1" with link := some ⟨"L1", 10, 10, 64, "H1", "H2"⟩ }
            ⟨"L2", 10, 10, 64, "H1", "H3"⟩ =
          .error "Illegal to attach multiple links to a host") :=
  ⟨rfl, attach_link_once (Host.init "H1") ⟨"L1", 10, 10, 64, "H1", "H2"⟩
    ⟨"L2", 10, 10, 64, "H1", "H3"⟩ rfl⟩

end CS143
